import Mathlib

/-!
Shallow embedding of the two statistical notebooks of this repository
(the survival-analysis notebook and the RLMS multilevel notebook),
together with theorems settling the specification claims.

Numbers are modelled as exact rationals (ℚ).  A missing value (NaN)
is modelled as `none : Option ℚ`, with the pandas semantics that any
comparison against a missing value is false and any arithmetic with a
missing value is missing.  External library functions (`np.log`,
`np.random`, column means over unknown data) are modelled as explicit
parameters or as faithful definitions over the embedded rows.
-/

namespace Notebooks

/-! ## Generic helpers: numpy / pandas primitives used by the notebooks -/

/-- Boolean-mask indexing, `xs[mask]` in numpy: keep the entries of `xs`
whose corresponding mask entry is `true`. -/
def applyMask : List Bool → List ℚ → List ℚ
  | true :: bs, x :: xs => x :: applyMask bs xs
  | false :: bs, _ :: xs => applyMask bs xs
  | _, _ => []

/-- `np.diff`: first differences, `(np.diff xs)[i] = xs[i+1] - xs[i]`. -/
def npDiff (xs : List ℚ) : List ℚ :=
  List.zipWith (fun a b => b - a) xs xs.tail

/-- NaN-propagating addition on pandas series entries. -/
def optAdd : Option ℚ → Option ℚ → Option ℚ
  | some a, some b => some (a + b)
  | _, _ => none

/-- NaN-propagating subtraction on pandas series entries. -/
def optSub : Option ℚ → Option ℚ → Option ℚ
  | some a, some b => some (a - b)
  | _, _ => none

/-- NaN-propagating multiplication by a constant (`12*df.age`). -/
def optScale (c : ℚ) : Option ℚ → Option ℚ
  | some a => some (c * a)
  | none => none

/-- Pandas comparison `a > b`: false when either operand is missing. -/
def optGtB : Option ℚ → Option ℚ → Bool
  | some a, some b => decide (b < a)
  | _, _ => false

/-- Pandas comparison `a >= lo` and `a < hi` combined, false on missing. -/
def optInRangeB (lo hi : Option ℚ) : Option ℚ → Bool
  | some a => decide ((∀ l ∈ lo, l ≤ a) ∧ ∀ h ∈ hi, a < h)
  | none => false

/-! ## The survival-function object and the notebook-defined hazard
function.

`sm.SurvfuncRight` is external; the notebooks only read its
`surv_times` and `surv_prob` attributes, so the object is embedded as a
record of those two parallel arrays.  `np.log` (an external floating
point routine) is abstracted as a function parameter `log`. -/

structure Survfunc where
  surv_times : List ℚ
  surv_prob : List ℚ
deriving DecidableEq

/-- The boolean mask `ii = (pr > 0)` computed inside `hazard`. -/
def posMask (s : Survfunc) : List Bool :=
  s.surv_prob.map (fun p => decide (0 < p))

/-- `tm = s.surv_times[ii]`: times at which the survival probability is
positive. -/
def retainedTimes (s : Survfunc) : List ℚ :=
  applyMask (posMask s) s.surv_times

/-- `pr = s.surv_prob[ii]`: the positive survival probabilities. -/
def retainedProbs (s : Survfunc) : List ℚ :=
  applyMask (posMask s) s.surv_prob

/-- The notebook-defined function

```
def hazard(sf):
    tm = s.surv_times
    pr = s.surv_prob
    ii = (pr > 0)
    tm = tm[ii]
    pr = pr[ii]
    lpr = np.log(pr)
    return tm[0:-1], -np.diff(lpr) / np.diff(tm)
```

Its body reads the enclosing global `s`, not its argument `sf`; both are
passed here explicitly, `s` standing for the global.  `log` models
`np.log`. -/
def hazard (log : ℚ → ℚ) (s : Survfunc) (sf : Survfunc) : List ℚ × List ℚ :=
  let tm := retainedTimes s
  let pr := retainedProbs s
  let lpr := pr.map log
  (tm.dropLast, List.zipWith (fun dl dt => -dl / dt) (npDiff lpr) (npDiff tm))

/-! ## The Schich notable-people analysis (survival notebook, part 1)

Columns kept from the Excel conversion: PrsLabel, BYear, DYear, Gender.
`df["status"] = 1`, `df["lifespan"] = df.DYear - df.BYear`,
`df = df.loc[df.lifespan > 0, :]`. -/

structure SchichRaw where
  PrsLabel : Option String
  BYear : Option ℚ
  DYear : Option ℚ
  Gender : Option String
deriving DecidableEq

structure SchichRow where
  PrsLabel : Option String
  BYear : Option ℚ
  DYear : Option ℚ
  Gender : Option String
  status : Option ℚ
  lifespan : Option ℚ
deriving DecidableEq

/-- The two derived-variable cells: `df["status"] = 1` and
`df["lifespan"] = df.DYear - df.BYear`. -/
def schichDerive (r : SchichRaw) : SchichRow :=
  { PrsLabel := r.PrsLabel, BYear := r.BYear, DYear := r.DYear,
    Gender := r.Gender, status := some 1,
    lifespan := optSub r.DYear r.BYear }

/-- The dataset after `df = df.loc[df.lifespan > 0, :]` (a missing
lifespan compares as false, hence is dropped too). -/
def schichFiltered (raw : List SchichRaw) : List SchichRow :=
  (raw.map schichDerive).filter (fun r => optGtB r.lifespan (some 0))

/-- `dx = df.loc[df.Gender == sex, :]`, the data behind
`sm.SurvfuncRight(dx.lifespan, dx.status)` in the by-gender cells. -/
def schichGenderSub (raw : List SchichRaw) (sex : String) : List SchichRow :=
  (schichFiltered raw).filter (fun r => decide (r.Gender = some sex))

/-- `ii = (df.BYear >= byear) & (df.BYear < byear + 500)`;
`dx = df.loc[ii, :]`, the data behind the by-era survival fits. -/
def schichEraSub (raw : List SchichRaw) (byear : ℚ) : List SchichRow :=
  (schichFiltered raw).filter
    (fun r => optInRangeB (some byear) (some (byear + 500)) r.BYear)

/-- `df = df.loc[df.Gender.isin(["Female", "Male"]), :]`, the data
passed to `sm.PHReg.from_formula("lifespan ~ BYear + Gender +
BYear*Gender", data=df)`. -/
def schichPhregData (raw : List SchichRaw) : List SchichRow :=
  (schichFiltered raw).filter
    (fun r => decide (r.Gender = some "Female" ∨ r.Gender = some "Male"))

/-! ## The NHANES III analysis (survival notebook, part 2)

Rows of the merged dataframe (`pd.merge(surv, df, on="seqn")`), then

```
df["poverty"] = df["poverty"].replace({888888: np.nan})
df["female"] = (df.sex == 2).astype(np.int)
df["rural"] = (df.urbanrural == 2).astype(np.int)
df["age_int"] = 12*df.age
df["end"] = df.age_int + df.permth_int
df = df.dropna()
df = df.loc[df.end > df.age_int]
```
-/

structure NhanesRaw where
  seqn : Option ℚ
  eligstat : Option ℚ
  mortstat : Option ℚ
  permth_int : Option ℚ
  permth_exam : Option ℚ
  sex : Option ℚ
  age : Option ℚ
  county : Option ℚ
  urbanrural : Option ℚ
  state : Option ℚ
  region : Option ℚ
  poverty : Option ℚ
deriving DecidableEq

structure NhanesRow where
  seqn : Option ℚ
  eligstat : Option ℚ
  mortstat : Option ℚ
  permth_int : Option ℚ
  permth_exam : Option ℚ
  sex : Option ℚ
  age : Option ℚ
  county : Option ℚ
  urbanrural : Option ℚ
  state : Option ℚ
  region : Option ℚ
  poverty : Option ℚ
  female : Option ℚ
  rural : Option ℚ
  age_int : Option ℚ
  end_ : Option ℚ
deriving DecidableEq

/-- The derived-variable cell of the NHANES analysis.  Note that
`(df.sex == 2)` is false at a missing value, so `female` and `rural`
are never missing. -/
def nhanesDerive (r : NhanesRaw) : NhanesRow :=
  let poverty := if r.poverty = some 888888 then none else r.poverty
  let age_int := optScale 12 r.age
  { seqn := r.seqn, eligstat := r.eligstat, mortstat := r.mortstat,
    permth_int := r.permth_int, permth_exam := r.permth_exam,
    sex := r.sex, age := r.age, county := r.county,
    urbanrural := r.urbanrural, state := r.state, region := r.region,
    poverty := poverty,
    female := some (if r.sex = some 2 then 1 else 0),
    rural := some (if r.urbanrural = some 2 then 1 else 0),
    age_int := age_int,
    end_ := optAdd age_int r.permth_int }

/-- Whether a row survives `df.dropna()` (no missing value in any
column). -/
def nhanesComplete (r : NhanesRow) : Bool :=
  r.seqn.isSome && r.eligstat.isSome && r.mortstat.isSome &&
  r.permth_int.isSome && r.permth_exam.isSome && r.sex.isSome &&
  r.age.isSome && r.county.isSome && r.urbanrural.isSome &&
  r.state.isSome && r.region.isSome && r.poverty.isSome &&
  r.female.isSome && r.rural.isSome && r.age_int.isSome && r.end_.isSome

/-- The dataset after the derivation cell and `df = df.dropna()`. -/
def nhanesDropna (raw : List NhanesRaw) : List NhanesRow :=
  (raw.map nhanesDerive).filter nhanesComplete

/-- The dataset after `df = df.loc[df.end > df.age_int]`, which is the
`df` used by every NHANES `SurvfuncRight` and `PHReg` fit (the
by-gender survival fits use the further subsets
`df.loc[df.female == female, :]`). -/
def nhanesFiltered (raw : List NhanesRaw) : List NhanesRow :=
  (nhanesDropna raw).filter (fun r => optGtB r.end_ r.age_int)

/-- `dx = df.loc[df.female == female, :]`, the data behind
`sm.SurvfuncRight(dx["end"], dx["mortstat"], entry=dx["age_int"])`. -/
def nhanesGenderSub (raw : List NhanesRaw) (female : ℚ) : List NhanesRow :=
  (nhanesFiltered raw).filter (fun r => decide (r.female = some female))

/-! ## The RLMS multilevel analysis

A raw csv cell is either a parseable number, unparseable text, or
missing.  `pd.to_numeric(df[c], errors="coerce")` turns unparseable
text into a missing value instead of raising. -/

inductive RawCell where
  | num (q : ℚ)
  | text (s : String)
  | missing
deriving DecidableEq

/-- How `pd.to_numeric` treats an unparseable cell. -/
inductive CoerceMode where
  | coerce
  | raiseErr
deriving DecidableEq

/-- `pd.to_numeric(v, errors=mode)` on a single cell: a parse failure
raises only under `errors="raise"`. -/
def to_numeric (mode : CoerceMode) (v : RawCell) : Except String (Option ℚ) :=
  match v with
  | .num q => .ok (some q)
  | .missing => .ok none
  | .text _ =>
    match mode with
    | .coerce => .ok none
    | .raiseErr => .error "Unable to parse string"

/-- The coercion loop of the multilevel notebook: for each column `c`
in `qv`, `df[c] = pd.to_numeric(df[c], errors="coerce")`. -/
def rlmsCoercions : List (String × CoerceMode) :=
  [("idind", .coerce), ("year", .coerce), ("h6", .coerce),
   ("m1", .coerce), ("m2", .coerce), ("o38a", .coerce),
   ("j57", .coerce), ("j59", .coerce)]

structure RlmsRaw where
  idind : RawCell
  year : RawCell
  psu : RawCell
  marst : RawCell
  h5 : RawCell
  h7_2 : RawCell
  h6 : RawCell
  m1 : RawCell
  m2 : RawCell
  o38a : RawCell
  j57 : RawCell
  j59 : RawCell
deriving DecidableEq

/-- A row after the numeric coercions and the derived-variable cell.
Columns not in `qv` (`psu`, `marst`, `h5`, `h7_2`) keep their raw
cells. -/
structure RlmsRow where
  idind : Option ℚ
  year : Option ℚ
  psu : RawCell
  marst : RawCell
  h5 : RawCell
  h7_2 : RawCell
  h6 : Option ℚ
  m1 : Option ℚ
  m2 : Option ℚ
  o38a : Option ℚ
  j57 : Option ℚ
  j59 : Option ℚ
  female : Option ℚ
  age : Option ℚ
  bmi : Option ℚ
  year_cen : Option ℚ
  age_cen : Option ℚ
  birth_year_cen : Option ℚ
deriving DecidableEq

/-- The result of `pd.to_numeric(v, errors="coerce")` as a series
entry (it never raises). -/
def coerceCell (v : RawCell) : Option ℚ :=
  match v with
  | .num q => some q
  | .text _ => none
  | .missing => none

/-- Pandas column mean with `skipna=True` (the default): the mean of
the non-missing entries, missing when there are none. -/
def colMean (xs : List (Option ℚ)) : Option ℚ :=
  let vs := xs.filterMap id
  if vs.length = 0 then none else some (vs.sum / vs.length)

/-- The numeric-coercion cell applied to one row. -/
def rlmsCoerce (r : RlmsRaw) : RlmsRow :=
  { idind := coerceCell r.idind, year := coerceCell r.year,
    psu := r.psu, marst := r.marst, h5 := r.h5, h7_2 := r.h7_2,
    h6 := coerceCell r.h6, m1 := coerceCell r.m1,
    m2 := coerceCell r.m2, o38a := coerceCell r.o38a,
    j57 := coerceCell r.j57, j59 := coerceCell r.j59,
    female := none, age := none, bmi := none,
    year_cen := none, age_cen := none, birth_year_cen := none }

/-- The derived-variable cell:

```
df["female"] = (df.h5 == "female").astype(np.int)
df["age"] = df.year - df.h6
df["bmi"] = df.m1 / (df.m2 / 100)**2
year_mean = df.year.mean()
df["year_cen"] = df.year - year_mean
age_mean = df.age.mean()
df["age_cen"] = df.age - age_mean
df["birth_year_cen"] = df.h6 - df.h6.mean()
```

The column means are taken over the whole coerced dataframe and are
passed in here per row. -/
def rlmsDeriveRow (year_mean age_mean h6_mean : Option ℚ) (r : RlmsRow) : RlmsRow :=
  let age := optSub r.year r.h6
  { r with
    female := some (if r.h5 = .text "female" then 1 else 0),
    age := age,
    bmi := (match r.m1, r.m2 with
            | some m1, some m2 => some (m1 / (m2 / 100) ^ 2)
            | _, _ => none),
    year_cen := optSub r.year year_mean,
    age_cen := optSub age age_mean,
    birth_year_cen := optSub r.h6 h6_mean }

/-- The dataframe after the coercion and derivation cells. -/
def rlmsDerived (raw : List RlmsRaw) : List RlmsRow :=
  let coerced := raw.map rlmsCoerce
  let year_mean := colMean (coerced.map (fun r => r.year))
  let age_mean := colMean (coerced.map (fun r => optSub r.year r.h6))
  let h6_mean := colMean (coerced.map (fun r => r.h6))
  coerced.map (rlmsDeriveRow year_mean age_mean h6_mean)

/-- Whether a row survives
`dx = df[["idind", "bmi", "age_cen", "female", "birth_year_cen",
"year_cen", "psu"]].dropna()`. -/
def rlmsDxComplete (r : RlmsRow) : Bool :=
  r.idind.isSome && r.bmi.isSome && r.age_cen.isSome &&
  r.female.isSome && r.birth_year_cen.isSome && r.year_cen.isSome &&
  !(r.psu = .missing)

/-- The analysis dataset `dx` used by the OLS fit. -/
def rlmsDx (raw : List RlmsRaw) : List RlmsRow :=
  (rlmsDerived raw).filter rlmsDxComplete

/-- `dx = dx.loc[dx.idind.isin(idx_use), :]` — the subsample used by
every `MixedLM` fit; `idx_use` models the output of
`np.random.choice`. -/
def rlmsDxSub (raw : List RlmsRaw) (idx_use : List ℚ) : List RlmsRow :=
  (rlmsDx raw).filter (fun r => decide (∃ i ∈ idx_use, r.idind = some i))

/-! ## The model-fitting call sites

Each call of a library fitting routine is embedded as a record of the
arguments the notebook passes.  Column references are the column
names; `strata`/`entry`/`status` are `none` when the keyword is not
passed. -/

structure PHRegCall where
  formula : String
  status : Option String
  entry : Option String
  strata : Option String
deriving DecidableEq

/-- `model1 = sm.PHReg.from_formula("end ~ female + rural + C(region)
+ poverty", status="mortstat", entry=df.age_int, data=df)`. -/
def nhanesModel1 : PHRegCall :=
  { formula := "end ~ female + rural + C(region) + poverty",
    status := some "mortstat", entry := some "age_int", strata := none }

/-- `model2 = sm.PHReg.from_formula(..., status="mortstat",
entry=df.age_int, strata=df.state, data=df)`. -/
def nhanesModel2 : PHRegCall :=
  { formula := "end ~ female + rural + C(region) + poverty",
    status := some "mortstat", entry := some "age_int",
    strata := some "state" }

/-- `model3 = sm.PHReg.from_formula(..., status="mortstat",
entry=df.age_int, strata=df.county, data=df)`. -/
def nhanesModel3 : PHRegCall :=
  { formula := "end ~ female + rural + C(region) + poverty",
    status := some "mortstat", entry := some "age_int",
    strata := some "county" }

/-- All three NHANES proportional-hazards fits, in notebook order. -/
def nhanesPHRegCalls : List PHRegCall :=
  [nhanesModel1, nhanesModel2, nhanesModel3]

structure MixedLMCall where
  formula : String
  groups : String
  vc_formula : List (String × String)
deriving DecidableEq

/-- `model1 = sm.MixedLM.from_formula("bmi ~ age_cen*female +
year_cen", groups="idind", data=dx)`. -/
def rlmsModel1 : MixedLMCall :=
  { formula := "bmi ~ age_cen*female + year_cen", groups := "idind",
    vc_formula := [] }

/-- `vcf = {"i": "1", "s": "0 + age_cen"}`; `model2 =
sm.MixedLM.from_formula(..., groups="idind", vc_formula=vcf,
data=dx)`. -/
def rlmsModel2 : MixedLMCall :=
  { formula := "bmi ~ age_cen*female + year_cen", groups := "idind",
    vc_formula := [("i", "1"), ("s", "0 + age_cen")] }

/-- `vcf = {"i": "0 + C(idind)", "s": "0 + C(idind):age_cen", "ipsu":
"1"}`; `model3 = sm.MixedLM.from_formula(..., groups="psu",
vc_formula=vcf, data=dx)`. -/
def rlmsModel3 : MixedLMCall :=
  { formula := "bmi ~ age_cen*female + year_cen", groups := "psu",
    vc_formula := [("i", "0 + C(idind)"), ("s", "0 + C(idind):age_cen"),
                   ("ipsu", "1")] }

/-- `vcf = {"i": "0 + C(idind)", "s": "0 + C(idind):age_cen", "ipsu":
"1", "spsu": "0 + age_cen"}`; `model4 = sm.MixedLM.from_formula(...,
groups="psu", vc_formula=vcf, data=dx)`. -/
def rlmsModel4 : MixedLMCall :=
  { formula := "bmi ~ age_cen*female + year_cen", groups := "psu",
    vc_formula := [("i", "0 + C(idind)"), ("s", "0 + C(idind):age_cen"),
                   ("ipsu", "1"), ("spsu", "0 + age_cen")] }

/-- All four mixed-effects fits of the multilevel notebook, in
notebook order. -/
def rlmsMixedLMCalls : List MixedLMCall :=
  [rlmsModel1, rlmsModel2, rlmsModel3, rlmsModel4]

/-- A variance-component formula declaring a random intercept. -/
def interceptVC (f : String) : Prop :=
  f = "1" ∨ f = "0 + C(idind)"

/-- A variance-component formula declaring a random slope in
`age_cen`. -/
def slopeVC (f : String) : Prop :=
  f = "0 + age_cen" ∨ f = "0 + C(idind):age_cen"

instance (f : String) : Decidable (interceptVC f) := by
  unfold interceptVC; infer_instance

instance (f : String) : Decidable (slopeVC f) := by
  unfold slopeVC; infer_instance

/-! ## The file-reading operations performed by the notebooks -/

inductive ReadKind where
  | csvGzip
  | fwfGzip
  | excel
  | stata
deriving DecidableEq

structure FileRead where
  path : String
  kind : ReadKind
deriving DecidableEq

/-- The guard of the Schich Excel-conversion cell (`if False:` as
written in the notebook). -/
def schichConvertGuard : Bool := false

/-- The guard of the RLMS Stata-conversion cell (`if False:` as
written in the notebook). -/
def rlmsConvertGuard : Bool := false

/-- The reads of the survival notebook, in cell order: the guarded
Excel conversion, `pd.read_csv("schich.csv.gz")`, and the two
`pd.read_fwf(..., compression="gzip")` NHANES reads. -/
def survivalNotebookReads : List FileRead :=
  (if schichConvertGuard then
    [{ path := "/nfs/kshedden/Schich/SchichDataS1_FB.xlsx", kind := .excel }]
   else []) ++
  [{ path := "schich.csv.gz", kind := .csvGzip },
   { path := "/nfs/kshedden/NHANES/NHANES_III_MORT_2011_PUBLIC.dat.gz",
     kind := .fwfGzip },
   { path := "/nfs/kshedden/NHANES/adult.dat.gz", kind := .fwfGzip }]

/-- The reads of the multilevel notebook, in cell order: the guarded
Stata conversion and `pd.read_csv("/nfs/kshedden/RLMS/rlms.csv.gz")`. -/
def multilevelNotebookReads : List FileRead :=
  (if rlmsConvertGuard then
    [{ path := "RLMS_IND_1994_2015_v2_STATA.dta", kind := .stata }]
   else []) ++
  [{ path := "/nfs/kshedden/RLMS/rlms.csv.gz", kind := .csvGzip }]

/-- All file reads performed on an execution of the notebooks as
written. -/
def allNotebookReads : List FileRead :=
  survivalNotebookReads ++ multilevelNotebookReads

/-! ## Mutable globals read by later cells (multilevel notebook)

The simulation cell after the random intercepts fit reads the global
scalars left by earlier cells: `a = pa["Intercept"]`, `b =
pa["age_cen"]`, `s = np.sqrt(pa["idind Var"])` (where `pa =
result1.params` was set two cells earlier) and `age_mean` (set in the
derived-variable cell).  The draw of `np.random.normal()` is passed in
as `noise`. -/

structure SimGlobals where
  age_mean : ℚ
  intercept : ℚ
  age_slope : ℚ
  icpt_sd : ℚ
deriving DecidableEq

/-- `y = a + b * (x - age_mean) + s * np.random.normal()` — the value
simulated for one subject at age `x` by the cell at the heart of the
random-intercepts visualization. -/
def simCellY (g : SimGlobals) (x noise : ℚ) : ℚ :=
  g.intercept + g.age_slope * (x - g.age_mean) + g.icpt_sd * noise

/-! ## Helper lemmas -/

theorem applyMask_length_eq :
    ∀ (bs : List Bool) (xs ys : List ℚ), xs.length = ys.length →
      (applyMask bs xs).length = (applyMask bs ys).length
  | [], _, _, _ => by simp [applyMask]
  | _ :: _, [], [], _ => by simp [applyMask]
  | true :: bs, x :: xs, y :: ys, h => by
      simp only [applyMask, List.length_cons]
      exact congrArg (· + 1) (applyMask_length_eq bs xs ys (by simpa using h))
  | false :: bs, x :: xs, y :: ys, h => by
      simp only [applyMask]
      exact applyMask_length_eq bs xs ys (by simpa using h)

theorem npDiff_length (xs : List ℚ) : (npDiff xs).length = xs.length - 1 := by
  simp only [npDiff, List.length_zipWith, List.length_tail]
  omega

theorem zipWith_getD (f : ℚ → ℚ → ℚ) :
    ∀ (as bs : List ℚ) (i : ℕ), i < as.length → i < bs.length →
      (List.zipWith f as bs).getD i 0 = f (as.getD i 0) (bs.getD i 0)
  | _ :: _, _ :: _, 0, _, _ => rfl
  | a :: as, b :: bs, i + 1, h1, h2 => by
      simpa using zipWith_getD f as bs i (by simpa using h1) (by simpa using h2)
  | [], _, i, h1, _ => absurd h1 (by simp)
  | _ :: _, [], i, _, h2 => absurd h2 (by simp)

theorem tail_getD (xs : List ℚ) (i : ℕ) :
    xs.tail.getD i 0 = xs.getD (i + 1) 0 := by
  cases xs <;> rfl

theorem map_getD (f : ℚ → ℚ) :
    ∀ (xs : List ℚ) (i : ℕ), i < xs.length → (xs.map f).getD i 0 = f (xs.getD i 0)
  | _ :: _, 0, _ => rfl
  | x :: xs, i + 1, h => by
      simpa using map_getD f xs i (by simpa using h)
  | [], i, h => absurd h (by simp)

theorem npDiff_getD (xs : List ℚ) (i : ℕ) (h : i + 1 < xs.length) :
    (npDiff xs).getD i 0 = xs.getD (i + 1) 0 - xs.getD i 0 := by
  rw [npDiff, zipWith_getD _ _ _ i (by omega) (by rw [List.length_tail]; omega),
      tail_getD]

theorem retainedProbs_length (s : Survfunc)
    (hlen : s.surv_times.length = s.surv_prob.length) :
    (retainedProbs s).length = (retainedTimes s).length :=
  (applyMask_length_eq (posMask s) s.surv_times s.surv_prob hlen).symm

/-! ## Claim theorems -/

/-- C3: for a survival-function estimate whose positive-probability
entries number at least two and have strictly increasing times, the
notebooks' `hazard` returns the retained times with the last removed,
paired with the difference quotients
`(log pr[i] - log pr[i+1]) / (t[i+1] - t[i])` — the slopes of the
estimated cumulative hazard `-log S` between consecutive retained time
points — and the returned list of hazards is one shorter than the list
of retained times. -/
theorem hazard_computes_cumhaz_slopes (log : ℚ → ℚ) (s sf : Survfunc)
    (hlen : s.surv_times.length = s.surv_prob.length)
    (hmono : List.Chain' (· < ·) (retainedTimes s))
    (h2 : 2 ≤ (retainedTimes s).length) :
    (hazard log s sf).1 = (retainedTimes s).dropLast ∧
    (hazard log s sf).2.length = (retainedTimes s).length - 1 ∧
    ∀ i, i + 1 < (retainedTimes s).length →
      (hazard log s sf).2.getD i 0 =
        (log ((retainedProbs s).getD i 0) - log ((retainedProbs s).getD (i + 1) 0)) /
        ((retainedTimes s).getD (i + 1) 0 - (retainedTimes s).getD i 0) := by
  have hpr := retainedProbs_length s hlen
  refine ⟨rfl, ?_, ?_⟩
  · show (List.zipWith _ (npDiff ((retainedProbs s).map log)) (npDiff (retainedTimes s))).length = _
    rw [List.length_zipWith, npDiff_length, npDiff_length, List.length_map, hpr]
    omega
  · intro i hi
    have hlpr : ((retainedProbs s).map log).length = (retainedTimes s).length := by
      rw [List.length_map, hpr]
    show (List.zipWith (fun dl dt => -dl / dt)
        (npDiff ((retainedProbs s).map log)) (npDiff (retainedTimes s))).getD i 0 = _
    rw [zipWith_getD _ _ _ i (by rw [npDiff_length, hlpr]; omega)
          (by rw [npDiff_length]; omega),
        npDiff_getD _ _ (by rw [hlpr]; omega), npDiff_getD _ _ hi,
        map_getD _ _ _ (by rw [hpr]; omega), map_getD _ _ _ (by rw [hpr]; omega),
        neg_sub]

/-- A concrete survival-function estimate: times `[0, 2, 5]`,
probabilities `[1, 1/2, 0]`.  The zero-probability entry is dropped by
`hazard` and two entries remain. -/
def survDemo : Survfunc := { surv_times := [0, 2, 5], surv_prob := [1, 1/2, 0] }

/-- Witness for C3 at `survDemo`: the hypotheses hold and the single
hazard value is `(log 1 - log (1/2)) / (2 - 0)` (with `log` taken as
the identity for evaluation). -/
theorem hazard_computes_cumhaz_slopes_witness :
    survDemo.surv_times.length = survDemo.surv_prob.length ∧
    List.Chain' (· < ·) (retainedTimes survDemo) ∧
    2 ≤ (retainedTimes survDemo).length ∧
    (hazard id survDemo survDemo).2.getD 0 0 =
      (id ((retainedProbs survDemo).getD 0 0) - id ((retainedProbs survDemo).getD 1 0)) /
      ((retainedTimes survDemo).getD 1 0 - (retainedTimes survDemo).getD 0 0) :=
  ⟨rfl, by norm_num [retainedTimes, posMask, applyMask, survDemo],
   by norm_num [retainedTimes, posMask, applyMask, survDemo],
   (hazard_computes_cumhaz_slopes id survDemo survDemo rfl
     (by norm_num [retainedTimes, posMask, applyMask, survDemo])
     (by norm_num [retainedTimes, posMask, applyMask, survDemo])).2.2 0
     (by norm_num [retainedTimes, posMask, applyMask, survDemo])⟩

/-- C4: the value of any call `hazard(sf)` is independent of the
argument `sf`; the body reads only the enclosing global `s`, so two
calls under the same global state agree. -/
theorem hazard_ignores_argument (log : ℚ → ℚ) (s sf1 sf2 : Survfunc) :
    hazard log s sf1 = hazard log s sf2 := rfl

/-- C5: the NHANES proportional-hazards fits use entry-time
left-truncation and optional stratification as described: all three
`PHReg` fits pass `age_int` — the age in months at interview, computed
as `12*df.age` — as the entry time; the first uses no strata, the
second stratifies by `state`, the third by `county`. -/
theorem nhanes_phreg_entry_and_strata :
    nhanesModel1.entry = some "age_int" ∧
    nhanesModel2.entry = some "age_int" ∧
    nhanesModel3.entry = some "age_int" ∧
    nhanesModel1.strata = none ∧
    nhanesModel2.strata = some "state" ∧
    nhanesModel3.strata = some "county" ∧
    nhanesPHRegCalls = [nhanesModel1, nhanesModel2, nhanesModel3] ∧
    (∀ r : NhanesRaw, (nhanesDerive r).age_int = optScale 12 r.age) :=
  ⟨rfl, rfl, rfl, rfl, rfl, rfl, rfl, fun _ => rfl⟩

/-- C6: every mixed-effects fit of the multilevel notebook passes the
fixed-effect formula `bmi ~ age_cen*female + year_cen`, with a single
grouping factor (`idind` for the subject-level models, `psu` for the
PSU-level models); every variance-component formula used is either a
random intercept (`1` or `0 + C(idind)`) or a random slope in
`age_cen` (`0 + age_cen` or `0 + C(idind):age_cen`), and whenever a
fit declares variance components at all it declares both an intercept
and a slope form. -/
theorem rlms_mixedlm_formula_groups_vc :
    (∀ c ∈ rlmsMixedLMCalls, c.formula = "bmi ~ age_cen*female + year_cen") ∧
    rlmsModel1.groups = "idind" ∧ rlmsModel2.groups = "idind" ∧
    rlmsModel3.groups = "psu" ∧ rlmsModel4.groups = "psu" ∧
    (∀ c ∈ rlmsMixedLMCalls, ∀ p ∈ c.vc_formula, interceptVC p.2 ∨ slopeVC p.2) ∧
    (∀ c ∈ rlmsMixedLMCalls, c.vc_formula ≠ [] →
      (∃ p ∈ c.vc_formula, interceptVC p.2) ∧ (∃ p ∈ c.vc_formula, slopeVC p.2)) := by
  refine ⟨?_, rfl, rfl, rfl, rfl, ?_, ?_⟩ <;> decide

/-- Witness for C6: the membership hypotheses are satisfiable, shown
at the random-slopes fit `rlmsModel2` and its slope component. -/
theorem rlms_mixedlm_formula_groups_vc_witness :
    rlmsModel2.formula = "bmi ~ age_cen*female + year_cen" ∧
    (interceptVC ("1" : String) ∨ slopeVC "1") :=
  ⟨rlms_mixedlm_formula_groups_vc.1 rlmsModel2 (by decide),
   rlms_mixedlm_formula_groups_vc.2.2.2.2.2.1 rlmsModel2 (by decide)
     ("i", "1") (by decide)⟩

/-- C7: on an execution of the notebooks as written, every file read
actually performed is a gzip-compressed csv or fixed-width text read;
the Excel- and Stata-conversion cells are guarded by a literal `if
False` and their read calls never execute. -/
theorem notebook_reads_only_gzip_text :
    schichConvertGuard = false ∧
    rlmsConvertGuard = false ∧
    (∀ r ∈ allNotebookReads, r.kind = ReadKind.csvGzip ∨ r.kind = ReadKind.fwfGzip) ∧
    (∀ r ∈ allNotebookReads, r.kind ≠ ReadKind.excel ∧ r.kind ≠ ReadKind.stata) := by
  refine ⟨rfl, rfl, ?_, ?_⟩ <;> decide

/-- Witness for C7 at the first NHANES fixed-width read. -/
theorem notebook_reads_only_gzip_text_witness :
    FileRead.kind { path := "/nfs/kshedden/NHANES/adult.dat.gz", kind := ReadKind.fwfGzip } =
      ReadKind.csvGzip ∨
    FileRead.kind { path := "/nfs/kshedden/NHANES/adult.dat.gz", kind := ReadKind.fwfGzip } =
      ReadKind.fwfGzip :=
  notebook_reads_only_gzip_text.2.2.1
    { path := "/nfs/kshedden/NHANES/adult.dat.gz", kind := ReadKind.fwfGzip } (by decide)

/-! ## Pipeline destructuring lemmas -/

theorem optGtB_eq_true {a b : Option ℚ} (h : optGtB a b = true) :
    ∃ x y, a = some x ∧ b = some y ∧ y < x := by
  cases a with
  | none => simp [optGtB] at h
  | some x =>
    cases b with
    | none => simp [optGtB] at h
    | some y => exact ⟨x, y, rfl, rfl, by simpa [optGtB] using h⟩

theorem optSub_eq_some {a b : Option ℚ} {v : ℚ} (h : optSub a b = some v) :
    ∃ x y, a = some x ∧ b = some y ∧ v = x - y := by
  cases a with
  | none => simp [optSub] at h
  | some x =>
    cases b with
    | none => simp [optSub] at h
    | some y => exact ⟨x, y, rfl, rfl, by simpa [optSub] using h.symm⟩

theorem optAdd_isSome {a b : Option ℚ} (h : (optAdd a b).isSome = true) :
    ∃ x y, a = some x ∧ b = some y ∧ optAdd a b = some (x + y) := by
  cases a with
  | none => simp [optAdd] at h
  | some x =>
    cases b with
    | none => simp [optAdd] at h
    | some y => exact ⟨x, y, rfl, rfl, rfl⟩

theorem mem_schichFiltered {raw : List SchichRaw} {r : SchichRow}
    (h : r ∈ schichFiltered raw) :
    (∃ x ∈ raw, r = schichDerive x) ∧ optGtB r.lifespan (some 0) = true := by
  unfold schichFiltered at h
  rw [List.mem_filter] at h
  obtain ⟨h1, h2⟩ := h
  rw [List.mem_map] at h1
  obtain ⟨x, hx, hxr⟩ := h1
  exact ⟨⟨x, hx, hxr.symm⟩, h2⟩

/-- Rows surviving the `df.lifespan > 0` filter have a strictly
positive, non-missing lifespan, a non-missing birth year, and status
`1`. -/
theorem schichFiltered_fields {raw : List SchichRaw} {r : SchichRow}
    (h : r ∈ schichFiltered raw) :
    (∃ v, r.lifespan = some v ∧ 0 < v) ∧ (∃ b, r.BYear = some b) ∧
      r.status = some 1 := by
  obtain ⟨⟨x, _, hxr⟩, hgt⟩ := mem_schichFiltered h
  obtain ⟨v, z, hv, hz, hlt⟩ := optGtB_eq_true hgt
  have hz0 : z = 0 := by
    have := hz.symm
    injection this
  have hv' : (schichDerive x).lifespan = some v := by rw [← hxr]; exact hv
  refine ⟨⟨v, hv, ?_⟩, ?_, ?_⟩
  · rw [hz0] at hlt; exact hlt
  · obtain ⟨d, b, _, hb, _⟩ := optSub_eq_some hv'
    exact ⟨b, by rw [hxr]; exact hb⟩
  · rw [hxr]; rfl

theorem mem_nhanesDropna {raw : List NhanesRaw} {r : NhanesRow}
    (h : r ∈ nhanesDropna raw) :
    (∃ x ∈ raw, r = nhanesDerive x) ∧ nhanesComplete r = true := by
  unfold nhanesDropna at h
  rw [List.mem_filter] at h
  obtain ⟨h1, h2⟩ := h
  rw [List.mem_map] at h1
  obtain ⟨x, hx, hxr⟩ := h1
  exact ⟨⟨x, hx, hxr.symm⟩, h2⟩

theorem mem_nhanesFiltered {raw : List NhanesRaw} {r : NhanesRow}
    (h : r ∈ nhanesFiltered raw) :
    (∃ x ∈ raw, r = nhanesDerive x) ∧ nhanesComplete r = true ∧
      optGtB r.end_ r.age_int = true := by
  unfold nhanesFiltered at h
  rw [List.mem_filter] at h
  obtain ⟨h1, h2⟩ := h
  obtain ⟨hx, hc⟩ := mem_nhanesDropna h1
  exact ⟨hx, hc, h2⟩

/-! ## Concrete rows used by counterexamples and witnesses -/

/-- A complete Schich record whose death year equals its birth year
(zero lifespan). -/
def schichZeroRow : SchichRaw :=
  { PrsLabel := some "A", BYear := some 100, DYear := some 100,
    Gender := some "Female" }

/-- A complete Schich record with lifespan 70. -/
def schichGoodRow : SchichRaw :=
  { PrsLabel := some "B", BYear := some 100, DYear := some 170,
    Gender := some "Female" }

/-- A complete NHANES record with zero observed duration
(`permth_int = 0`, so `end = age_int`). -/
def nhanesZeroRow : NhanesRaw :=
  { seqn := some 1, eligstat := some 1, mortstat := some 1,
    permth_int := some 0, permth_exam := some 0, sex := some 2,
    age := some 30, county := some 3, urbanrural := some 1,
    state := some 5, region := some 2, poverty := some 100 }

/-- A complete NHANES record with positive observed duration
(`permth_int = 5`). -/
def nhanesGoodRow : NhanesRaw :=
  { seqn := some 2, eligstat := some 1, mortstat := some 1,
    permth_int := some 5, permth_exam := some 5, sex := some 2,
    age := some 30, county := some 3, urbanrural := some 1,
    state := some 5, region := some 2, poverty := some 100 }

/-- C1, counterexample: zero-duration survival records are rejected by
row filters in the repository's own code, not first by the external
library.  The complete zero-duration NHANES record survives
`df.dropna()` (so missing-value filtering does not touch it) but is
removed by `df = df.loc[df.end > df.age_int]`, and the zero-lifespan
Schich record is removed by `df = df.loc[df.lifespan > 0, :]`; neither
record ever reaches a library call. -/
theorem zero_duration_removed_by_repo_filter :
    (nhanesDerive nhanesZeroRow).end_ = (nhanesDerive nhanesZeroRow).age_int ∧
    nhanesDerive nhanesZeroRow ∈ nhanesDropna [nhanesZeroRow] ∧
    nhanesDerive nhanesZeroRow ∉ nhanesFiltered [nhanesZeroRow] ∧
    (schichDerive schichZeroRow).lifespan = some 0 ∧
    schichDerive schichZeroRow ∉ schichFiltered [schichZeroRow] := by
  refine ⟨?_, ?_, ?_, ?_, ?_⟩
  · norm_num [nhanesDerive, nhanesZeroRow, optScale, optAdd]
  · norm_num [nhanesDropna, nhanesDerive, nhanesComplete, nhanesZeroRow,
      optScale, optAdd]
  · norm_num [nhanesFiltered, nhanesDropna, nhanesDerive, nhanesComplete,
      nhanesZeroRow, optScale, optAdd, optGtB]
  · norm_num [schichDerive, schichZeroRow, optSub]
  · norm_num [schichFiltered, schichDerive, schichZeroRow, optSub, optGtB]

/-- C1, amended: the repository's own code enforces, besides ad hoc
missing-value filtering, explicit positive-duration row filters:
every row that reaches a survival-library call has strictly positive
duration because `df.loc[df.lifespan > 0]` (Schich) and
`df.loc[df.end > df.age_int]` (NHANES) removed the others in the
repository's own code. -/
theorem repo_filters_enforce_positive_duration :
    (∀ (raw : List SchichRaw), ∀ r ∈ schichFiltered raw,
      ∃ v, r.lifespan = some v ∧ 0 < v) ∧
    (∀ (raw : List NhanesRaw), ∀ r ∈ nhanesFiltered raw,
      ∃ e a, r.end_ = some e ∧ r.age_int = some a ∧ a < e) := by
  constructor
  · intro raw r h
    exact (schichFiltered_fields h).1
  · intro raw r h
    obtain ⟨-, -, hgt⟩ := mem_nhanesFiltered h
    obtain ⟨e, a, he, ha, hlt⟩ := optGtB_eq_true hgt
    exact ⟨e, a, he, ha, hlt⟩

/-- Witness for the amended C1 at the concrete positive-duration
records. -/
theorem repo_filters_enforce_positive_duration_witness :
    (∃ v, (schichDerive schichGoodRow).lifespan = some v ∧ 0 < v) ∧
    (∃ e a, (nhanesDerive nhanesGoodRow).end_ = some e ∧
      (nhanesDerive nhanesGoodRow).age_int = some a ∧ a < e) :=
  ⟨repo_filters_enforce_positive_duration.1 [schichGoodRow]
      (schichDerive schichGoodRow)
      (by norm_num [schichFiltered, schichDerive, schichGoodRow, optSub, optGtB]),
   repo_filters_enforce_positive_duration.2 [nhanesGoodRow]
      (nhanesDerive nhanesGoodRow)
      (by norm_num [nhanesFiltered, nhanesDropna, nhanesDerive, nhanesComplete,
        nhanesGoodRow, optScale, optAdd, optGtB])⟩

/-- C10: every row of the derived NHANES dataset satisfies
`age_int = 12*age` and `end = age_int + permth_int`, and after the
`end > age_int` filter every record passed to `SurvfuncRight` or
`PHReg` has strictly positive observed duration:
`end - entry = permth_int > 0`. -/
theorem nhanes_duration_identities (raw : List NhanesRaw) (r : NhanesRow) :
    (∀ x : NhanesRaw, (nhanesDerive x).age_int = optScale 12 x.age ∧
      (nhanesDerive x).end_ = optAdd (nhanesDerive x).age_int x.permth_int) ∧
    (r ∈ nhanesFiltered raw →
      ∃ e a p, r.end_ = some e ∧ r.age_int = some a ∧ r.permth_int = some p ∧
        e - a = p ∧ 0 < p) := by
  refine ⟨fun x => ⟨rfl, rfl⟩, fun h => ?_⟩
  obtain ⟨⟨x, -, hxr⟩, hc, hgt⟩ := mem_nhanesFiltered h
  obtain ⟨e, a, he, ha, hlt⟩ := optGtB_eq_true hgt
  have hend : r.end_ = optAdd r.age_int r.permth_int := by
    rw [hxr]; rfl
  have hpi : (optAdd r.age_int r.permth_int).isSome = true := by
    rw [← hend, he]; rfl
  obtain ⟨a', p, ha', hp, hsum⟩ := optAdd_isSome hpi
  have haa : a' = a := by
    rw [ha] at ha'
    injection ha' with h'
    exact h'.symm
  have hea : e = a + p := by
    have : (some e : Option ℚ) = some (a' + p) := by
      rw [← he, hend, hsum]
    rw [haa] at this
    injection this
  refine ⟨e, a, p, he, ha, hp, by rw [hea]; ring, ?_⟩
  have : a < a + p := by rw [← hea]; exact hlt
  linarith

/-- Witness for C10 at the concrete positive-duration record. -/
theorem nhanes_duration_identities_witness :
    ∃ e a p, (nhanesDerive nhanesGoodRow).end_ = some e ∧
      (nhanesDerive nhanesGoodRow).age_int = some a ∧
      (nhanesDerive nhanesGoodRow).permth_int = some p ∧
      e - a = p ∧ 0 < p :=
  (nhanes_duration_identities [nhanesGoodRow] (nhanesDerive nhanesGoodRow)).2
    (by norm_num [nhanesFiltered, nhanesDropna, nhanesDerive, nhanesComplete,
      nhanesGoodRow, optScale, optAdd, optGtB])

/-- A complete RLMS record with every numeric column parseable. -/
def rlmsGoodRaw : RlmsRaw :=
  { idind := .num 1, year := .num 2000, psu := .num 7, marst := .num 1,
    h5 := .text "female", h7_2 := .num 1, h6 := .num 1970, m1 := .num 70,
    m2 := .num 175, o38a := .num 8, j57 := .num 100, j59 := .num 160 }

/-- The row `rlmsGoodRaw` becomes in the singleton analysis dataset
(the column means of a singleton dataframe are its own values). -/
def rlmsGoodDerivedRow : RlmsRow :=
  rlmsDeriveRow (some 2000) (some 30) (some 1970) (rlmsCoerce rlmsGoodRaw)

/-- C8: the notebooks define and handle no errors beyond default
missing-data coercion: every `pd.to_numeric` coercion they perform
passes `errors="coerce"`, coercion under that mode never raises, and
every dataset passed to a model-fitting routine (the Schich by-gender,
by-era and proportional-hazards data, the NHANES filtered data and its
by-gender subsets, and the RLMS `dx` and its subsample) has no
missing values left in its analysis columns. -/
theorem coerce_only_and_fits_on_complete_rows :
    (∀ c ∈ rlmsCoercions, c.2 = CoerceMode.coerce) ∧
    (∀ v : RawCell, ∃ w, to_numeric CoerceMode.coerce v = Except.ok w) ∧
    (∀ (raw : List SchichRaw) (sex : String), ∀ r ∈ schichGenderSub raw sex,
      r.lifespan.isSome = true ∧ r.status = some 1) ∧
    (∀ (raw : List SchichRaw) (byear : ℚ), ∀ r ∈ schichEraSub raw byear,
      r.lifespan.isSome = true ∧ r.status = some 1) ∧
    (∀ (raw : List SchichRaw), ∀ r ∈ schichPhregData raw,
      r.lifespan.isSome = true ∧ r.BYear.isSome = true ∧ r.Gender.isSome = true) ∧
    (∀ (raw : List NhanesRaw), ∀ r ∈ nhanesFiltered raw, nhanesComplete r = true) ∧
    (∀ (raw : List NhanesRaw) (female : ℚ), ∀ r ∈ nhanesGenderSub raw female,
      nhanesComplete r = true) ∧
    (∀ (raw : List RlmsRaw), ∀ r ∈ rlmsDx raw, rlmsDxComplete r = true) ∧
    (∀ (raw : List RlmsRaw) (idx : List ℚ), ∀ r ∈ rlmsDxSub raw idx,
      rlmsDxComplete r = true) := by
  refine ⟨by decide, ?_, ?_, ?_, ?_, ?_, ?_, ?_, ?_⟩
  · intro v
    cases v <;> exact ⟨_, rfl⟩
  · intro raw sex r h
    rw [schichGenderSub, List.mem_filter] at h
    obtain ⟨⟨v, hv, -⟩, -, hst⟩ := schichFiltered_fields h.1
    exact ⟨by rw [hv]; rfl, hst⟩
  · intro raw byear r h
    rw [schichEraSub, List.mem_filter] at h
    obtain ⟨⟨v, hv, -⟩, -, hst⟩ := schichFiltered_fields h.1
    exact ⟨by rw [hv]; rfl, hst⟩
  · intro raw r h
    rw [schichPhregData, List.mem_filter] at h
    obtain ⟨⟨v, hv, -⟩, ⟨b, hb⟩, -⟩ := schichFiltered_fields h.1
    have hg := of_decide_eq_true h.2
    refine ⟨by rw [hv]; rfl, by rw [hb]; rfl, ?_⟩
    rcases hg with hg | hg <;> rw [hg] <;> rfl
  · intro raw r h
    exact (mem_nhanesFiltered h).2.1
  · intro raw female r h
    rw [nhanesGenderSub, List.mem_filter] at h
    exact (mem_nhanesFiltered h.1).2.1
  · intro raw r h
    rw [rlmsDx, List.mem_filter] at h
    exact h.2
  · intro raw idx r h
    rw [rlmsDxSub, List.mem_filter] at h
    rw [rlmsDx, List.mem_filter] at h
    exact h.1.2

/-- Witness for C8: each quantified part instantiated at a concrete
record that reaches the corresponding fit. -/
theorem coerce_only_and_fits_on_complete_rows_witness :
    (("idind", CoerceMode.coerce).2 = CoerceMode.coerce) ∧
    (∃ w, to_numeric CoerceMode.coerce (RawCell.text "n/a") = Except.ok w) ∧
    ((schichDerive schichGoodRow).lifespan.isSome = true ∧
      (schichDerive schichGoodRow).status = some 1) ∧
    ((schichDerive schichGoodRow).lifespan.isSome = true ∧
      (schichDerive schichGoodRow).BYear.isSome = true ∧
      (schichDerive schichGoodRow).Gender.isSome = true) ∧
    nhanesComplete (nhanesDerive nhanesGoodRow) = true ∧
    rlmsDxComplete rlmsGoodDerivedRow = true :=
  ⟨coerce_only_and_fits_on_complete_rows.1 ("idind", CoerceMode.coerce) (by decide),
   coerce_only_and_fits_on_complete_rows.2.1 (RawCell.text "n/a"),
   coerce_only_and_fits_on_complete_rows.2.2.1 [schichGoodRow] "Female"
     (schichDerive schichGoodRow)
     (by norm_num [schichGenderSub, schichFiltered, schichDerive, schichGoodRow,
       optSub, optGtB]),
   coerce_only_and_fits_on_complete_rows.2.2.2.2.1 [schichGoodRow]
     (schichDerive schichGoodRow)
     (by norm_num [schichPhregData, schichFiltered, schichDerive, schichGoodRow,
       optSub, optGtB]),
   coerce_only_and_fits_on_complete_rows.2.2.2.2.2.1 [nhanesGoodRow]
     (nhanesDerive nhanesGoodRow)
     (by norm_num [nhanesFiltered, nhanesDropna, nhanesDerive, nhanesComplete,
       nhanesGoodRow, optScale, optAdd, optGtB]),
   coerce_only_and_fits_on_complete_rows.2.2.2.2.2.2.2.1 [rlmsGoodRaw]
     rlmsGoodDerivedRow
     (by simp [rlmsDx, rlmsDerived, rlmsCoerce, rlmsDeriveRow, rlmsGoodRaw,
       rlmsGoodDerivedRow, colMean, coerceCell, optSub, rlmsDxComplete]
         <;> norm_num)⟩

/-! ## The claim that all presented estimates are library outputs -/

/-- Stated from the spec's words, for comparison with the code: if
every statistical estimate presented were computed by the external
library and not by a function defined in the notebooks, the values the
notebook-defined `hazard` returns for plotting could only be values
the library already provided — retained times, retained probabilities,
or their logs — merely selected, not newly computed. -/
def presentsOnlyLibraryValues (log : ℚ → ℚ) : Prop :=
  ∀ s sf : Survfunc, ∀ x ∈ (hazard log s sf).2,
    x ∈ s.surv_times ∨ x ∈ s.surv_prob ∨ x ∈ s.surv_prob.map log

/-- C2, counterexample: the notebooks do contain original estimation
logic.  On the library output `survDemo` the notebook-defined `hazard`
presents the value `1/4`, which is none of the library-provided
values, under any model of `np.log` (shown at `log = id`). -/
theorem hazard_not_library_passthrough :
    ¬ ∀ log : ℚ → ℚ, presentsOnlyLibraryValues log := by
  intro h
  have hmem : (1/4 : ℚ) ∈ (hazard id survDemo survDemo).2 := by
    norm_num [hazard, retainedTimes, retainedProbs, posMask, applyMask,
      npDiff, survDemo]
  have h2 := h id survDemo survDemo (1/4) hmem
  rcases h2 with h2 | h2 | h2 <;> norm_num [survDemo] at h2

/-- C2, amended: the repository's own code is limited to data loading,
column selection, type coercion, derived-variable computation, library
fit invocation and plotting, except for one notebook-defined
estimator: the `hazard` function, which itself computes the presented
hazard estimates — cumulative-hazard difference quotients — from the
library's survival-function output rather than passing library values
through. -/
theorem hazard_is_notebook_defined_estimator :
    (hazard id survDemo survDemo).2 =
      [(id ((retainedProbs survDemo).getD 0 0) - id ((retainedProbs survDemo).getD 1 0)) /
        ((retainedTimes survDemo).getD 1 0 - (retainedTimes survDemo).getD 0 0)] ∧
    (1/4 : ℚ) ∈ (hazard id survDemo survDemo).2 ∧
    (1/4 : ℚ) ∉ survDemo.surv_times ∧
    (1/4 : ℚ) ∉ survDemo.surv_prob := by
  refine ⟨?_, ?_, ?_, ?_⟩ <;>
    norm_num [hazard, retainedTimes, retainedProbs, posMask, applyMask,
      npDiff, survDemo]

/-- C9, counterexample: a cell's result does not depend only on the
dataset and the cell's own local variables.  The simulation cell of
the multilevel notebook computes
`y = a + b * (x - age_mean) + s * np.random.normal()` from the global
scalars left by earlier cells; with identical locals (`x = 1`, a zero
normal draw) and no dataset access at all, two global states differing
only in `age_mean` give different results. -/
theorem sim_cell_result_depends_on_globals :
    simCellY { age_mean := 0, intercept := 0, age_slope := 1, icpt_sd := 0 } 1 0 ≠
      simCellY { age_mean := 1, intercept := 0, age_slope := 1, icpt_sd := 0 } 1 0 := by
  norm_num [simCellY]

/-- C9, amended: execution is single-threaded, synchronous, batch
execution of cells in sequence, but the cells share mutable global
state beyond the in-process dataset: later cells read globals left by
earlier cells (the fitted parameters and the scalar `age_mean`), and
whenever the fitted age slope is nonzero the simulation cell's result
genuinely varies with the global `age_mean` alone. -/
theorem sim_cell_reads_age_mean_global (g g' : SimGlobals)
    (hi : g.intercept = g'.intercept) (hs : g.age_slope = g'.age_slope)
    (hsd : g.icpt_sd = g'.icpt_sd) (hb : g.age_slope ≠ 0)
    (hm : g.age_mean ≠ g'.age_mean) :
    ∃ x noise, simCellY g x noise ≠ simCellY g' x noise := by
  refine ⟨0, 0, fun hEq => hm ?_⟩
  simp only [simCellY] at hEq
  rw [hi, hs, hsd] at hEq
  have key : g'.age_slope * g.age_mean = g'.age_slope * g'.age_mean := by
    ring_nf at hEq ⊢
    linarith
  exact mul_left_cancel₀ (hs ▸ hb) key

/-- Witness for the amended C9 at two concrete global states. -/
theorem sim_cell_reads_age_mean_global_witness :
    ∃ x noise,
      simCellY { age_mean := 0, intercept := 3, age_slope := 2, icpt_sd := 0 } x noise ≠
      simCellY { age_mean := 5, intercept := 3, age_slope := 2, icpt_sd := 0 } x noise :=
  sim_cell_reads_age_mean_global
    { age_mean := 0, intercept := 3, age_slope := 2, icpt_sd := 0 }
    { age_mean := 5, intercept := 3, age_slope := 2, icpt_sd := 0 }
    rfl rfl rfl (by norm_num) (by norm_num)

end Notebooks
